import Mathlib

/-!
Verification of the document-processor core (`src/processor.py`,
class `DocumentProcessor`) against its natural-language specification.

The Python code is shallowly embedded: Python strings become `String`
(manipulated through `List Char`), Python dicts with a fixed schema become
structures, `re` regular expressions become an explicit backtracking
matcher over a small regex AST mirroring each source pattern, and the
OpenAI boundary becomes explicit `Option`-valued parameters (with `none`
standing for an absent client or a failed call).
-/

namespace DocProc

/-- Python `\s` / `str.strip` whitespace over the ASCII range
(the source only ever handles ASCII separators). -/
def pyWs (c : Char) : Bool :=
  c = ' ' || c = '\t' || c = '\n' || c = '\r' || c = '\x0b' || c = '\x0c'

/-- Python regex `\w`: alphanumeric or underscore (ASCII range suffices
for the source's patterns). -/
def isWordChar (c : Char) : Bool :=
  c.isAlphanum || c = '_'

/-- Python `s.split(sep)` for a one-character separator: split at every
occurrence, keeping empty pieces. Every `str.split` in the source uses a
one-character separator (`'\n'`, `'|'`, `'\t'`, `'.'`). -/
def splitChar (sep : Char) : List Char → List (List Char)
  | [] => [[]]
  | x :: xs =>
    match splitChar sep xs with
    | [] => [[]]
    | h :: t => if x = sep then [] :: h :: t else (x :: h) :: t

/-- Python substring test `pat in hay` (for non-empty `pat`). -/
def containsSub (pat : List Char) : List Char → Bool
  | [] => decide (pat = [])
  | c :: cs => pat.isPrefixOf (c :: cs) || containsSub pat cs

/-- Python `hay.count(pat)`: non-overlapping occurrences, scanning left
to right (used by `_classify_document`; all patterns are non-empty). -/
def countSubAux (pat : List Char) : List Char → Nat → Nat
  | [], _ => 0
  | c :: cs, skip =>
    if skip > 0 then countSubAux pat cs (skip - 1)
    else if pat.isPrefixOf (c :: cs) && !pat.isEmpty then
      1 + countSubAux pat cs (pat.length - 1)
    else
      countSubAux pat cs 0

/-- Python `hay.count(pat)`: non-overlapping occurrences, scanning left
to right (used by `_classify_document`; all patterns are non-empty).
After a hit at position `i` the scan resumes at `i + len(pat)`, which the
auxiliary `skip` counter enforces. -/
def countSub (pat hay : List Char) : Nat :=
  countSubAux pat hay 0

/-- Python `str.strip()`: drop whitespace from both ends. -/
def stripList (l : List Char) : List Char :=
  ((l.dropWhile pyWs).reverse.dropWhile pyWs).reverse

/-- Python `str.split()` (no argument): split on whitespace runs,
discarding empty pieces. Splitting at every whitespace character and
dropping the empties yields the same pieces. -/
def splitWsAll (l : List Char) : List (List Char) :=
  (l.foldr
    (fun c acc =>
      match acc with
      | [] => if pyWs c then [[], []] else [[c]]
      | h :: t => if pyWs c then [] :: h :: t else (c :: h) :: t)
    [[]]).filter (· ≠ [])

/-- Auxiliary scanner for `splitWs2`. When the flag is `true` the scan is
inside a whitespace run that has already closed the previous piece and is
being consumed greedily. -/
def splitWs2Aux : Bool → List Char → List (List Char)
  | _, [] => [[]]
  | true, c :: rest =>
    if pyWs c then splitWs2Aux true rest
    else
      match splitWs2Aux false rest with
      | [] => [[c]]
      | h :: t => (c :: h) :: t
  | false, c :: rest =>
    if pyWs c && (match rest with | r :: _ => pyWs r | [] => false) then
      [] :: splitWs2Aux true rest
    else
      match splitWs2Aux false rest with
      | [] => [[c]]
      | h :: t => (c :: h) :: t

/-- Python `re.split(r'\s{2,}', line)`: split on each maximal run of at
least two whitespace characters (the `\s{2,}` match is greedy, so it
always consumes a whole run); single whitespace characters stay inside
the surrounding piece. -/
def splitWs2 (l : List Char) : List (List Char) :=
  splitWs2Aux false l

/-- Python `str.lower()` (ASCII, which covers every keyword the source
compares against). -/
def pyLower (s : String) : String :=
  ⟨s.data.map Char.toLower⟩

/-- Python `sep.join(parts)`. -/
def pyJoin (sep : String) : List String → String
  | [] => ""
  | [p] => p
  | p :: q :: rest => p ++ sep ++ pyJoin sep (q :: rest)

/-- `str.strip` lifted to `String`. -/
def pyStrip (s : String) : String :=
  ⟨stripList s.data⟩

/-- One-character `str.split` lifted to `String`. -/
def pySplitChar (c : Char) (s : String) : List String :=
  (splitChar c s.data).map (⟨·⟩)

/-- Substring test `pat in s` lifted to `String`. -/
def pyContainsStr (pat s : String) : Bool :=
  containsSub pat.data s.data

/-- `s.count(pat)` lifted to `String`. -/
def countSubStr (pat s : String) : Nat :=
  countSub pat.data s.data

/-- `re.split(r'\s{2,}', s)` lifted to `String`. -/
def pySplitWs2 (s : String) : List String :=
  (splitWs2 s.data).map (⟨·⟩)

/-- `len(s.split())` word splitting lifted to `String`. -/
def pyWords (s : String) : List String :=
  (splitWsAll s.data).map (⟨·⟩)

/-! ### A small regex engine

Just enough of Python `re` to express `DocumentProcessor.indonesian_patterns`
verbatim. Every quantifier in those patterns sits on a single character
class, so the AST carries character-class repetition (`clsrep`) as one
bounded-or-unbounded greedy construct, plus alternation, concatenation,
word boundary `\b` and one capture group. The matcher enumerates end
positions in Python's backtracking order: first alternative first,
greedy quantifiers longest first. -/

inductive Rx where
  | eps
  | cls (p : Char → Bool)
  | clsrep (p : Char → Bool) (lo : Nat) (hi : Option Nat)
  | alt (a b : Rx)
  | seq (a b : Rx)
  | wordB
  | grp (r : Rx)

/-- Literal character. -/
def chr (c : Char) : Rx := Rx.cls (fun x => x = c)

/-- Literal string. -/
def rstr (s : String) : Rx :=
  s.data.foldr (fun c acc => Rx.seq (chr c) acc) Rx.eps

/-- Does a word character sit at this side of a position (`none` = outside
the text, which counts as a non-word side for `\b`)? -/
def optWord : Option Char → Bool
  | some c => isWordChar c
  | none => false

/-- All ways the pattern can match starting at position `i` of `text`,
as `(end position, capture-group span)`, in Python's backtracking
priority order (head = the match Python commits to). -/
def matchR (text : List Char) : Rx → Nat → List (Nat × Option (Nat × Nat))
  | .eps, i => [(i, none)]
  | .cls p, i =>
    match (text.drop i).head? with
    | some c => if p c then [(i + 1, none)] else []
    | none => []
  | .clsrep p lo hi, i =>
    let run := ((text.drop i).takeWhile p).length
    let upper := match hi with | some h => min run h | none => run
    if upper < lo then []
    else (List.range (upper + 1 - lo)).map (fun k => (i + upper - k, none))
  | .alt a b, i => matchR text a i ++ matchR text b i
  | .seq a b, i =>
    (matchR text a i).flatMap
      (fun x => (matchR text b x.1).map (fun y => (y.1, x.2 <|> y.2)))
  | .wordB, i =>
    let before := if i = 0 then none else (text.drop (i - 1)).head?
    let after := (text.drop i).head?
    if optWord before != optWord after then [(i, none)] else []
  | .grp r, i => (matchR text r i).map (fun x => (x.1, some (i, x.1)))

/-- Does the pattern contain a capture group? (`re.findall` returns the
group's text instead of the whole match when the pattern has exactly one
group, which is the case for the source's `phone` pattern.) -/
def hasGrp : Rx → Bool
  | .eps | .cls _ | .clsrep _ _ _ | .wordB => false
  | .alt a b | .seq a b => hasGrp a || hasGrp b
  | .grp _ => true

/-- The slice `text[a:b]` as a `String`. -/
def mkSlice (text : List Char) (a b : Nat) : String :=
  ⟨(text.drop a).take (b - a)⟩

/-- The scanning loop of `re.findall`: try each start position from left
to right, commit to the engine's first match there, and resume after the
matched span (advancing one position on an empty match, as CPython does). -/
def reScan (r : Rx) (g : Bool) (text : List Char) : Nat → Nat → List String
  | 0, _ => []
  | fuel + 1, i =>
    if i > text.length then []
    else
      match (matchR text r i).head? with
      | some (j, cap) =>
        let piece :=
          if g then (match cap with | some (a, b) => mkSlice text a b | none => "")
          else mkSlice text i j
        if j > i then piece :: reScan r g text fuel j
        else piece :: reScan r g text fuel (i + 1)
      | none => reScan r g text fuel (i + 1)

/-- Python `re.findall(pattern, s)` for the supported pattern fragment. -/
def re_findall (r : Rx) (s : String) : List String :=
  reScan r (hasGrp r) s.data (s.data.length + 2) 0

/-! ### `DocumentProcessor.indonesian_patterns`

Each definition mirrors one entry of the `indonesian_patterns` dict,
with the source regex quoted in its doc comment. -/

/-- Character class `[\d.,]`. -/
def moneyChar (c : Char) : Bool := c.isDigit || c = '.' || c = ','

/-- Character class `[-\s]`. -/
def dashWs (c : Char) : Bool := c = '-' || pyWs c

/-- Character class `[A-Za-z0-9._%+-]` (email local part). -/
def emailLocalChar (c : Char) : Bool :=
  c.isAlpha || c.isDigit || c = '.' || c = '_' || c = '%' || c = '+' || c = '-'

/-- Character class `[A-Za-z0-9.-]` (email domain). -/
def emailDomainChar (c : Char) : Bool :=
  c.isAlpha || c.isDigit || c = '.' || c = '-'

/-- Character class `[A-Z|a-z]` — note the literal `|` inside the class,
exactly as written in the source. -/
def tldChar (c : Char) : Bool :=
  ('A' ≤ c && c ≤ 'Z') || c = '|' || ('a' ≤ c && c ≤ 'z')

/-- Character class `[A-Z]`. -/
def upperChar (c : Char) : Bool := 'A' ≤ c && c ≤ 'Z'

/-- Character class `[A-Za-z\s]`. -/
def alphaWsChar (c : Char) : Bool := c.isAlpha || pyWs c

/-- `'ktp': r'\b\d{16}\b'`. -/
def ktpRx : Rx :=
  .seq .wordB (.seq (.clsrep Char.isDigit 16 (some 16)) .wordB)

/-- `'phone': r'(\+62|08)\d{2,3}[-\s]?\d{3,4}[-\s]?\d{3,4}'`. -/
def phoneRx : Rx :=
  .seq (.grp (.alt (rstr "+62") (rstr "08")))
    (.seq (.clsrep Char.isDigit 2 (some 3))
      (.seq (.clsrep dashWs 0 (some 1))
        (.seq (.clsrep Char.isDigit 3 (some 4))
          (.seq (.clsrep dashWs 0 (some 1))
            (.clsrep Char.isDigit 3 (some 4))))))

/-- `'email': r'\b[A-Za-z0-9._%+-]+@[A-Za-z0-9.-]+\.[A-Z|a-z]{2,}\b'`. -/
def emailRx : Rx :=
  .seq .wordB
    (.seq (.clsrep emailLocalChar 1 none)
      (.seq (chr '@')
        (.seq (.clsrep emailDomainChar 1 none)
          (.seq (chr '.')
            (.seq (.clsrep tldChar 2 none) .wordB)))))

/-- `'currency': r'Rp\.?\s?[\d.,]+|IDR\s?[\d.,]+'`. -/
def currencyRx : Rx :=
  .alt
    (.seq (rstr "Rp")
      (.seq (.clsrep (fun c => c = '.') 0 (some 1))
        (.seq (.clsrep pyWs 0 (some 1)) (.clsrep moneyChar 1 none))))
    (.seq (rstr "IDR")
      (.seq (.clsrep pyWs 0 (some 1)) (.clsrep moneyChar 1 none)))

/-- `'date': r'\d{1,2}[S-]\d{1,2}[S-]\d{4}|\d{4}-\d{2}-\d{2}'`, where `S`
stands for the forward-slash character (spelled that way here only because
a literal slash-dash class would open a nested comment). -/
def dateRx : Rx :=
  .alt
    (.seq (.clsrep Char.isDigit 1 (some 2))
      (.seq (.cls (fun c => c = '/' || c = '-'))
        (.seq (.clsrep Char.isDigit 1 (some 2))
          (.seq (.cls (fun c => c = '/' || c = '-'))
            (.clsrep Char.isDigit 4 (some 4))))))
    (.seq (.clsrep Char.isDigit 4 (some 4))
      (.seq (chr '-')
        (.seq (.clsrep Char.isDigit 2 (some 2))
          (.seq (chr '-') (.clsrep Char.isDigit 2 (some 2))))))

/-- `'company': r'PT\.?\s+[A-Z][A-Za-z\s]+|CV\.?\s+[A-Z][A-Za-z\s]+'`. -/
def companyRx : Rx :=
  .alt
    (.seq (rstr "PT")
      (.seq (.clsrep (fun c => c = '.') 0 (some 1))
        (.seq (.clsrep pyWs 1 none)
          (.seq (.cls upperChar) (.clsrep alphaWsChar 1 none)))))
    (.seq (rstr "CV")
      (.seq (.clsrep (fun c => c = '.') 0 (some 1))
        (.seq (.clsrep pyWs 1 none)
          (.seq (.cls upperChar) (.clsrep alphaWsChar 1 none)))))

/-! ### `_extract_entities` -/

/-- The `entities["contact_info"]` sub-dict. -/
structure ContactInfo where
  emails : List String
  phones : List String
deriving DecidableEq

/-- The fixed-schema `entities` dict built by `_extract_entities`. -/
structure EntityBundle where
  people : List String
  organizations : List String
  dates : List String
  monetary_amounts : List String
  locations : List String
  contact_info : ContactInfo
  id_numbers : List String
deriving DecidableEq

/-- The all-empty bundle the function starts from (and returns as-is for
empty content). -/
def emptyBundle : EntityBundle :=
  { people := [], organizations := [], dates := [], monetary_amounts := []
    locations := [], contact_info := { emails := [], phones := [] }
    id_numbers := [] }

/-- The merge loop over a successfully parsed AI response
(`for key, values in ai_entities.items(): if key in entities and
isinstance(values, list): entities[key].extend(values)`).
The response is modelled as the list-valued items of the decoded dict in
iteration order. A `"contact_info"` item would hit
`dict.extend` (an `AttributeError`), which the surrounding `except`
catches, aborting the rest of the merge — hence that branch stops. Keys
not present in the bundle schema are skipped. -/
def mergeAi : EntityBundle → List (String × List String) → EntityBundle
  | e, [] => e
  | e, (k, vs) :: rest =>
    if k = "people" then mergeAi { e with people := e.people ++ vs } rest
    else if k = "organizations" then
      mergeAi { e with organizations := e.organizations ++ vs } rest
    else if k = "dates" then mergeAi { e with dates := e.dates ++ vs } rest
    else if k = "monetary_amounts" then
      mergeAi { e with monetary_amounts := e.monetary_amounts ++ vs } rest
    else if k = "locations" then
      mergeAi { e with locations := e.locations ++ vs } rest
    else if k = "id_numbers" then
      mergeAi { e with id_numbers := e.id_numbers ++ vs } rest
    else if k = "contact_info" then e
    else mergeAi e rest

/-- The final "Clean duplicates" pass: `list(set(value))` on every list
value and on every list inside a dict value. A Python `set` iterates in
an unspecified order, so the model keeps `List.dedup`'s order; membership
and duplicate-freeness coincide with the source's behaviour. -/
def dedupBundle (e : EntityBundle) : EntityBundle :=
  { people := e.people.dedup
    organizations := e.organizations.dedup
    dates := e.dates.dedup
    monetary_amounts := e.monetary_amounts.dedup
    locations := e.locations.dedup
    contact_info :=
      { emails := e.contact_info.emails.dedup
        phones := e.contact_info.phones.dedup }
    id_numbers := e.id_numbers.dedup }

/-- `DocumentProcessor._extract_entities(content, indonesian_mode)`.
The OpenAI pass is modelled by `ai`: `none` when no client is configured
or the call/parse failed (the code then leaves the bundle untouched),
`some items` for a decoded response. -/
def extract_entities (content : String) (indonesian_mode : Bool)
    (ai : Option (List (String × List String))) : EntityBundle :=
  if content = "" then emptyBundle
  else
    let e1 :=
      if indonesian_mode then
        { emptyBundle with
          id_numbers := re_findall ktpRx content
          contact_info :=
            { phones := re_findall phoneRx content
              emails := re_findall emailRx content }
          monetary_amounts := re_findall currencyRx content
          dates := re_findall dateRx content
          organizations := re_findall companyRx content }
      else emptyBundle
    let e2 := match ai with | none => e1 | some items => mergeAi e1 items
    dedupBundle e2

/-! ### `_generate_simple_summary` -/

/-- The fixed-schema summary dict built by `_generate_simple_summary`. -/
structure SimpleSummary where
  executive_summary : String
  key_points : List String
  urgency_level : String
  sentiment : String
deriving DecidableEq

/-- `urgency_words = ['urgent', 'penting', 'segera', 'deadline', 'asap']`. -/
def urgency_words : List String := ["urgent", "penting", "segera", "deadline", "asap"]

/-- `positive_words = ['good', 'baik', 'sukses', 'berhasil', 'positif']`. -/
def positive_words : List String := ["good", "baik", "sukses", "berhasil", "positif"]

/-- `negative_words = ['bad', 'buruk', 'gagal', 'masalah', 'negatif']`. -/
def negative_words : List String := ["bad", "buruk", "gagal", "masalah", "negatif"]

/-- `DocumentProcessor._generate_simple_summary(content)`. -/
def generate_simple_summary (content : String) : SimpleSummary :=
  if content = "" then
    { executive_summary := "No content available for summary"
      key_points := []
      urgency_level := "LOW"
      sentiment := "NEUTRAL" }
  else
    let word_count := (pyWords content).length
    let sentence_count :=
      ((pySplitChar '.' content).filter (fun s => pyStrip s ≠ "")).length
    let lower := pyLower content
    let urgency_level :=
      if urgency_words.any (fun w => pyContainsStr w lower) then "HIGH" else "LOW"
    let pos_count := (positive_words.filter (fun w => pyContainsStr w lower)).length
    let neg_count := (negative_words.filter (fun w => pyContainsStr w lower)).length
    let sentiment :=
      if pos_count > neg_count then "POSITIVE"
      else if neg_count > pos_count then "NEGATIVE"
      else "NEUTRAL"
    { executive_summary :=
        "Document contains " ++ toString word_count ++ " words across "
          ++ toString sentence_count ++ " sentences."
      key_points :=
        ["Document length: " ++ toString word_count ++ " words",
         "Estimated reading time: " ++ toString (word_count / 200) ++ " minutes"]
      urgency_level := urgency_level
      sentiment := sentiment }

/-! ### `json.loads` and `_generate_summary`

`_generate_summary` feeds the raw AI completion to `json.loads` and
returns whatever it decodes; a decode error is caught and the heuristic
summary returned instead. The decoder is modelled by a small executable
JSON parser: numbers keep their lexeme (their numeric value never
matters to the pipeline). -/

inductive Jsonish where
  | null
  | bool (b : Bool)
  | num (lexeme : String)
  | str (s : String)
  | arr (xs : List Jsonish)
  | obj (kvs : List (String × Jsonish))

/-- JSON's insignificant whitespace. -/
def jsonWs (c : Char) : Bool :=
  c = ' ' || c = '\t' || c = '\n' || c = '\r'

/-- Scan a JSON string body up to the closing quote; escape sequences are
kept verbatim after the backslash (their decoded spelling never matters
to the pipeline, only whether the document parses). -/
def jsonStringBody : List Char → Option (List Char × List Char)
  | [] => none
  | '"' :: rest => some ([], rest)
  | '\\' :: c :: rest =>
    match jsonStringBody rest with
    | some (s, r) => some ('\\' :: c :: s, r)
    | none => none
  | c :: rest =>
    match jsonStringBody rest with
    | some (s, r) => some (c :: s, r)
    | none => none

/-- Scan a JSON number starting at a digit or `-`; returns its lexeme. -/
def jsonNumber (l : List Char) : Option (List Char × List Char) :=
  let (sign, l1) := match l with | '-' :: r => (['-'], r) | _ => ([], l)
  let intPart := l1.takeWhile Char.isDigit
  if intPart = [] then none
  else
    let l2 := l1.drop intPart.length
    let (frac, l3) :=
      match l2 with
      | '.' :: r =>
        let ds := r.takeWhile Char.isDigit
        if ds = [] then ([], l2) else ('.' :: ds, r.drop ds.length)
      | _ => ([], l2)
    let (expPart, l4) :=
      match l3 with
      | 'e' :: r | 'E' :: r =>
        let (es, r1) := match r with | '+' :: q => (['+'], q) | '-' :: q => (['-'], q) | _ => ([], r)
        let ds := r1.takeWhile Char.isDigit
        if ds = [] then ([], l3) else ('e' :: es ++ ds, r1.drop ds.length)
      | _ => ([], l3)
    some (sign ++ intPart ++ frac ++ expPart, l4)

mutual

def jsonVal : Nat → List Char → Option (Jsonish × List Char)
  | 0, _ => none
  | fuel + 1, l =>
    match l.dropWhile jsonWs with
    | '{' :: rest =>
      (match (rest.dropWhile jsonWs) with
       | '}' :: r => some (.obj [], r)
       | _ => match jsonObjItems fuel rest with
              | some (kvs, r) => some (.obj kvs, r)
              | none => none)
    | '[' :: rest =>
      (match (rest.dropWhile jsonWs) with
       | ']' :: r => some (.arr [], r)
       | _ => match jsonArrItems fuel rest with
              | some (xs, r) => some (.arr xs, r)
              | none => none)
    | '"' :: rest =>
      (match jsonStringBody rest with
       | some (s, r) => some (.str ⟨s⟩, r)
       | none => none)
    | 't' :: 'r' :: 'u' :: 'e' :: rest => some (.bool true, rest)
    | 'f' :: 'a' :: 'l' :: 's' :: 'e' :: rest => some (.bool false, rest)
    | 'n' :: 'u' :: 'l' :: 'l' :: rest => some (.null, rest)
    | other =>
      (match jsonNumber other with
       | some (lex, r) => some (.num ⟨lex⟩, r)
       | none => none)

def jsonArrItems : Nat → List Char → Option (List Jsonish × List Char)
  | 0, _ => none
  | fuel + 1, l =>
    match jsonVal fuel l with
    | none => none
    | some (v, r) =>
      match r.dropWhile jsonWs with
      | ',' :: r2 =>
        (match jsonArrItems fuel r2 with
         | some (xs, r3) => some (v :: xs, r3)
         | none => none)
      | ']' :: r2 => some ([v], r2)
      | _ => none

def jsonObjItems : Nat → List Char → Option (List (String × Jsonish) × List Char)
  | 0, _ => none
  | fuel + 1, l =>
    match l.dropWhile jsonWs with
    | '"' :: rest =>
      (match jsonStringBody rest with
       | none => none
       | some (k, r) =>
         match r.dropWhile jsonWs with
         | ':' :: r2 =>
           (match jsonVal fuel r2 with
            | none => none
            | some (v, r3) =>
              match r3.dropWhile jsonWs with
              | ',' :: r4 =>
                (match jsonObjItems fuel r4 with
                 | some (kvs, r5) => some ((⟨k⟩, v) :: kvs, r5)
                 | none => none)
              | '}' :: r4 => some ([(⟨k⟩, v)], r4)
              | _ => none)
         | _ => none)
    | _ => none

end

/-- Python `json.loads(s)` as used by the processor: decode one JSON
document and require only trailing whitespace after it; `none` models the
`json.JSONDecodeError` the source catches. -/
def json_loads (s : String) : Option Jsonish :=
  match jsonVal (4 * s.data.length + 8) s.data with
  | some (v, rest) => if rest.dropWhile jsonWs = [] then some v else none
  | none => none

/-- The dict `_generate_simple_summary` returns, as a decoded-JSON value
(Python builds it with exactly these keys in this order). -/
def SimpleSummary.toJson (s : SimpleSummary) : Jsonish :=
  .obj [("executive_summary", .str s.executive_summary),
        ("key_points", .arr (s.key_points.map .str)),
        ("urgency_level", .str s.urgency_level),
        ("sentiment", .str s.sentiment)]

/-- `DocumentProcessor._generate_summary(content)`. `hasClient` is
`self.openai_client`; `aiResponse` is the completion text the OpenAI call
produced (`none` when the call itself raised). The decoded JSON is
returned verbatim on success; every failure path returns the heuristic
summary. -/
def generate_summary (hasClient : Bool) (aiResponse : Option String)
    (content : String) : Jsonish :=
  if hasClient = false || content = "" then (generate_simple_summary content).toJson
  else
    match aiResponse with
    | none => (generate_simple_summary content).toJson
    | some s =>
      match json_loads s with
      | some j => j
      | none => (generate_simple_summary content).toJson

/-! ### `_extract_tables_from_content` -/

/-- The candidacy test
`'|' in line or '\t' in line or '  ' in line`. -/
def is_candidate (line : String) : Bool :=
  pyContainsStr "|" line || pyContainsStr "\t" line || pyContainsStr "  " line

/-- The cell splitter applied to a candidate line: split by pipe, else
tab, else runs of two-or-more whitespace characters; strip each cell and
drop the empty ones. -/
def split_cells (line : String) : List String :=
  if pyContainsStr "|" line then
    ((pySplitChar '|' line).map pyStrip).filter (· ≠ "")
  else if pyContainsStr "\t" line then
    ((pySplitChar '\t' line).map pyStrip).filter (· ≠ "")
  else
    ((pySplitWs2 line).map pyStrip).filter (· ≠ "")

/-- The line loop of `_extract_tables_from_content`: `cur` is
`current_table`, `tabs` the accumulated `tables`. A candidate line with
at least two cells extends the open table; a candidate line with fewer
cells is ignored (the buffer stays open); a non-candidate line flushes
the buffer, emitting it only when it holds more than one row; the end of
input flushes once more. -/
def tablesLoop : List String → List (List String) → List (List (List String)) →
    List (List (List String))
  | [], cur, tabs => if cur.length > 1 then tabs ++ [cur] else tabs
  | line :: rest, cur, tabs =>
    if is_candidate line then
      let cells := split_cells line
      if cells.length > 1 then tablesLoop rest (cur ++ [cells]) tabs
      else tablesLoop rest cur tabs
    else
      if cur.length > 1 then tablesLoop rest [] (tabs ++ [cur])
      else tablesLoop rest [] tabs

/-- `DocumentProcessor._extract_tables_from_content(content)`. -/
def extract_tables_from_content (content : String) : List (List (List String)) :=
  tablesLoop (pySplitChar '\n' content) [] []

/-! ### `_classify_document` -/

/-- The classification result dict. Python computes the confidence with
float division `score / 10` and `min(·, 1.0)`; the model uses exact
rationals, which agree with binary floats on every comparison the code
performs (the operands are tiny integers over ten). -/
structure Classification where
  category : String
  confidence : ℚ
  subcategory : String
deriving DecidableEq

/-- The `classifications` keyword dict, in source declaration order. -/
def classifications : List (String × List String) :=
  [("invoice", ["invoice", "faktur", "tagihan", "bill", "pembayaran"]),
   ("contract", ["contract", "kontrak", "perjanjian", "agreement"]),
   ("receipt", ["receipt", "kwitansi", "bukti", "struk"]),
   ("letter", ["surat", "letter", "memo"]),
   ("report", ["report", "laporan", "analisis"]),
   ("certificate", ["certificate", "sertifikat", "ijazah"]),
   ("id_document", ["ktp", "sim", "passport", "identitas"])]

/-- `DocumentProcessor._get_subcategory(category, content)`. -/
def get_subcategory (category : String) (content : String) : String :=
  let content_lower := pyLower content
  if category = "invoice" then
    if pyContainsStr "pajak" content_lower || pyContainsStr "tax" content_lower then
      "tax_invoice"
    else if pyContainsStr "pro forma" content_lower then "proforma_invoice"
    else "standard_invoice"
  else if category = "contract" then
    if pyContainsStr "kerja" content_lower || pyContainsStr "employment" content_lower then
      "employment_contract"
    else if pyContainsStr "sewa" content_lower || pyContainsStr "rental" content_lower then
      "rental_agreement"
    else "service_contract"
  else if category = "letter" then
    if pyContainsStr "resign" content_lower || pyContainsStr "pengunduran" content_lower then
      "resignation_letter"
    else if pyContainsStr "lamaran" content_lower || pyContainsStr "application" content_lower then
      "application_letter"
    else "business_letter"
  else "general"

/-- `DocumentProcessor._classify_document(content, filename)`.
`max(scores, key=scores.get)` iterates the dict in insertion order and
keeps the first key whose score later keys never strictly exceed; the
fold keeps a candidate and replaces it only on a strictly greater score.
The `else` branch (`"unknown"`, confidence `0.0`) mirrors the source's
branch for an empty `scores` dict — which, `classifications` being a
non-empty literal, can never run. -/
def score_for (kws : List String) (content_lower filename_lower : String) : Nat :=
  (kws.map (fun kw =>
    countSubStr kw content_lower + countSubStr kw filename_lower * 2)).sum

def classify_document (content filename : String) : Classification :=
  match classifications.map
      (fun p => (p.1, score_for p.2 (pyLower content) (pyLower filename))) with
  | [] =>
    { category := "unknown", confidence := 0
      subcategory := get_subcategory "unknown" content }
  | s0 :: rest =>
    let best := rest.foldl (fun b p => if p.2 > b.2 then p else b) s0
    { category := best.1
      confidence := min ((best.2 : ℚ) / 10) 1
      subcategory := get_subcategory best.1 content }

/-! ### `_extract_docx` (text assembly)

Only the pure text-assembly step matters to the claims: given the
paragraph texts and the per-table cell matrices the `docx` library hands
back, the function keeps non-blank paragraphs, strips each table cell,
appends a `[TABLES]` block with each table pipe-joined row by row plus a
trailing empty part, and joins everything with blank lines. -/

def docx_text (paragraphs : List String) (tables : List (List (List String))) : String :=
  let paraParts := paragraphs.filter (fun p => pyStrip p ≠ "")
  let tabs := (tables.map (fun t => t.map (fun row => row.map pyStrip))).filter
    (fun t => t ≠ [])
  let tableParts :=
    if tabs ≠ [] then
      ["\n[TABLES]\n"] ++
        tabs.enum.flatMap (fun p =>
          ("Table " ++ toString (p.1 + 1) ++ ":") ::
            (p.2.map (pyJoin " | ") ++ [""]))
    else []
  pyJoin "\n\n" (paraParts ++ tableParts)

/-! ### `process_document` (post-extraction pipeline)

Everything after `_extract_content` returns: the empty-content guard and
the option-gated enrichment fan-out. File I/O and the wall clock stay
outside the model, so the extracted `content`, the `metadata` dict
(string-valued; only `filename` is ever read) and the timestamp are
inputs. The OpenAI boundary appears as in the functions above. -/

/-- The caller's options dict: `options.get(key, True)` reads each flag,
so an absent key (`none`) defaults to `True`. -/
structure POptions where
  extract_entities : Option Bool
  generate_summary : Option Bool
  extract_tables : Option Bool
  indonesian_mode : Option Bool

/-- A successful `process_document` result. -/
structure PResult where
  content : String
  metadata : List (String × String)
  extracted_at : String
  entities : Option EntityBundle
  summary : Option Jsonish
  tables : Option (List (List (List String)))
  classification : Classification

/-- The keys of the result dict, in Python insertion order. -/
def PResult.keys (r : PResult) : List String :=
  ["content", "metadata", "extracted_at"]
    ++ (if r.entities.isSome then ["entities"] else [])
    ++ (if r.summary.isSome then ["summary"] else [])
    ++ (if r.tables.isSome then ["tables"] else [])
    ++ ["classification"]

/-- `DocumentProcessor.process_document` from the point where extraction
has produced `(content, metadata)`: the `if not content` guard, then the
three flag-gated enrichments, then the unconditional classification.
The AI entity pass only runs when a client is configured
(`if self.openai_client` inside `_extract_entities`). -/
def process_pipeline (content : String) (metadata : List (String × String))
    (extractedAt : String) (opts : POptions) (hasClient : Bool)
    (aiEnt : Option (List (String × List String))) (aiSum : Option String) :
    Except String PResult :=
  if content = "" then .error "No content extracted from document"
  else .ok
    { content := content
      metadata := metadata
      extracted_at := extractedAt
      entities :=
        if opts.extract_entities.getD true then
          some (extract_entities content (opts.indonesian_mode.getD true)
            (if hasClient then aiEnt else none))
        else none
      summary :=
        if opts.generate_summary.getD true then
          some (generate_summary hasClient aiSum content)
        else none
      tables :=
        if opts.extract_tables.getD true then
          some (extract_tables_from_content content)
        else none
      classification :=
        classify_document content (((metadata.lookup "filename").getD "")) }

/-- The keys of the mapping `process_document` hands back: the result
keys on success, the lone `error` key on failure. -/
def pipelineKeys : Except String PResult → List String
  | .ok r => r.keys
  | .error _ => ["error"]

/-- "Plain alphanumeric cell contents" (the round-trip claim's
side-condition): a non-empty string of alphanumeric characters. -/
def plainCell (s : String) : Bool :=
  s ≠ "" && s.data.all Char.isAlphanum

/-! ## Claim theorems -/

/-- The input text of the spec's extraction example. -/
def c1_text : String :=
  "urgent: segera kirim invoice, Rp 150.000, contact 081234567890, email a@b.com"

/-- C1 counterexample: on the example text with `indonesian_mode` and no
AI client, the bundle does not contain `"Rp 150.000"` (the greedy
`[\d.,]+` keeps the trailing comma) nor `"081234567890"` (with a capture
group, `re.findall` returns the group's text, here the `08` prefix), so
the claimed conjunction fails. -/
theorem c1_counterexample :
    ¬ ("Rp 150.000" ∈ (extract_entities c1_text true none).monetary_amounts ∧
       "081234567890" ∈ (extract_entities c1_text true none).contact_info.phones ∧
       "a@b.com" ∈ (extract_entities c1_text true none).contact_info.emails ∧
       (generate_simple_summary c1_text).urgency_level = "HIGH") := by
  decide

/-- C1 amended: on the example text the bundle holds `"Rp 150.000,"`
(with the trailing comma) among the monetary amounts and `"08"` (the
capture group's text) among the phones, `"a@b.com"` among the emails,
and the heuristic summary's urgency is `HIGH`. -/
theorem c1_extraction_example :
    "Rp 150.000," ∈ (extract_entities c1_text true none).monetary_amounts ∧
    "08" ∈ (extract_entities c1_text true none).contact_info.phones ∧
    "a@b.com" ∈ (extract_entities c1_text true none).contact_info.emails ∧
    (generate_simple_summary c1_text).urgency_level = "HIGH" := by
  decide

/-- C2: the code at a keyword-free input. `scores` is built from the
non-empty literal `classifications` dict, so it is never empty and the
`"unknown"` branch can never run: with every score `0`,
`max(scores, key=scores.get)` keeps the first key, and the result is
category `"invoice"` with confidence `0` and subcategory
`"standard_invoice"` — not the `"unknown"` / `0` the claim (and the
source's own dead `else` branch) prescribe. -/
theorem c2_classify_all_zero_eval :
    classify_document "hello world" "doc.txt" =
      { category := "invoice", confidence := 0, subcategory := "standard_invoice" } := by
  have hs : classifications.map
      (fun p => (p.1, score_for p.2 (pyLower "hello world") (pyLower "doc.txt")))
      = [("invoice", 0), ("contract", 0), ("receipt", 0), ("letter", 0),
         ("report", 0), ("certificate", 0), ("id_document", 0)] := by decide
  have hsub : get_subcategory "invoice" "hello world" = "standard_invoice" := by decide
  have hb : List.foldl (fun (b p : String × Nat) => if p.2 > b.2 then p else b)
      ("invoice", 0)
      [("contract", 0), ("receipt", 0), ("letter", 0),
       ("report", 0), ("certificate", 0), ("id_document", 0)] = ("invoice", 0) := by decide
  unfold classify_document
  rw [hs]
  simp only [hb, hsub]
  simp [Classification.mk.injEq]

/-- C4 counterexample: with empty extracted content the pipeline does
fail before any enrichment, but the error string is
`"No content extracted from document"`, not the claimed
`"no content extracted"`. -/
theorem c4_counterexample :
    process_pipeline "" [] "t" ⟨none, none, none, none⟩ false none none
        = .error "No content extracted from document" ∧
      "No content extracted from document" ≠ "no content extracted" := by
  exact ⟨rfl, by decide⟩

/-- C4 amended: for every input whose extraction succeeds with empty
text, the pipeline returns exactly the error mapping with message
`"No content extracted from document"` (a bare `error` key and nothing
else), so no enrichment step runs. -/
theorem c4_empty_content (metadata : List (String × String)) (extractedAt : String)
    (opts : POptions) (hasClient : Bool)
    (aiEnt : Option (List (String × List String))) (aiSum : Option String) :
    process_pipeline "" metadata extractedAt opts hasClient aiEnt aiSum
        = .error "No content extracted from document" ∧
      pipelineKeys (process_pipeline "" metadata extractedAt opts hasClient aiEnt aiSum)
        = ["error"] := by
  exact ⟨rfl, rfl⟩

/-- C6: for every text, mode and AI outcome, every leaf collection of the
bundle `_extract_entities` returns — including the lists inside
`contact_info` — is duplicate-free (the final `list(set(...))` pass
dedups every list, and the empty-content early return yields empty
lists). -/
theorem c6_entities_no_duplicates (content : String) (mode : Bool)
    (ai : Option (List (String × List String))) :
    (extract_entities content mode ai).people.Nodup ∧
    (extract_entities content mode ai).organizations.Nodup ∧
    (extract_entities content mode ai).dates.Nodup ∧
    (extract_entities content mode ai).monetary_amounts.Nodup ∧
    (extract_entities content mode ai).locations.Nodup ∧
    (extract_entities content mode ai).id_numbers.Nodup ∧
    (extract_entities content mode ai).contact_info.emails.Nodup ∧
    (extract_entities content mode ai).contact_info.phones.Nodup := by
  unfold extract_entities
  by_cases h : content = "" <;>
    simp [h, emptyBundle, dedupBundle, List.nodup_dedup]

/-- C7: for non-empty text, when the configured AI call hands back a
string `json.loads` cannot parse, `_generate_summary` returns exactly
the heuristic `_generate_simple_summary` of the same text (the decode
error is caught, never propagated). -/
theorem c7_summary_fallback (content s : String) (hc : content ≠ "")
    (hj : json_loads s = none) :
    generate_summary true (some s) content
      = (generate_simple_summary content).toJson := by
  unfold generate_summary
  simp [hc, hj]

/-- C7 witness: the fallback at a concrete non-empty text and a concrete
unparseable AI response. -/
theorem c7_summary_fallback_witness :
    ("hello" ≠ "" ∧ json_loads "not json" = none) ∧
      generate_summary true (some "not json") "hello"
        = (generate_simple_summary "hello").toJson :=
  ⟨⟨by decide, by rfl⟩, c7_summary_fallback "hello" "not json" (by decide) (by rfl)⟩

/-- C9: `_generate_simple_summary` on empty text returns exactly the
no-content mapping. -/
theorem c9_simple_summary_empty :
    generate_simple_summary "" =
      { executive_summary := "No content available for summary"
        key_points := []
        urgency_level := "LOW"
        sentiment := "NEUTRAL" } := by
  rfl

/-- C10: with no options record (every flag absent), all three flag-gated
enrichments run — their keys all appear in the successful result — and
the entity pass runs with `indonesian_mode = True`; classification,
content, metadata and the timestamp are present as always. -/
theorem c10_option_defaults (content : String) (metadata : List (String × String))
    (extractedAt : String) (hasClient : Bool)
    (aiEnt : Option (List (String × List String))) (aiSum : Option String)
    (hc : content ≠ "") :
    ∃ r, process_pipeline content metadata extractedAt
          ⟨none, none, none, none⟩ hasClient aiEnt aiSum = .ok r ∧
      r.entities = some (extract_entities content true
        (if hasClient then aiEnt else none)) ∧
      r.summary = some (generate_summary hasClient aiSum content) ∧
      r.tables = some (extract_tables_from_content content) ∧
      r.keys = ["content", "metadata", "extracted_at", "entities", "summary",
                "tables", "classification"] := by
  unfold process_pipeline
  rw [if_neg hc]
  exact ⟨_, rfl, rfl, rfl, rfl, rfl⟩

/-- C3 counterexample: with every flag in the options record set to
false the successful result still carries the `classification` key (the
source computes classification unconditionally), so classification is
not toggleable — while the three genuinely gated keys are absent. -/
theorem c3_counterexample :
    pipelineKeys (process_pipeline "sample" [] "t"
        ⟨some false, some false, some false, some false⟩ false none none)
      = ["content", "metadata", "extracted_at", "classification"] ∧
    "classification" ∈ pipelineKeys (process_pipeline "sample" [] "t"
        ⟨some false, some false, some false, some false⟩ false none none) := by
  exact ⟨rfl, by decide⟩

/-- C3 amended: entity recognition, summarization and table
reconstruction are each individually toggleable — their key appears in
the successful result exactly when their flag (defaulting to true) is
set — but classification has no flag: its key is always present. -/
theorem c3_enrichment_toggles (content : String) (metadata : List (String × String))
    (extractedAt : String) (opts : POptions) (hasClient : Bool)
    (aiEnt : Option (List (String × List String))) (aiSum : Option String)
    (hc : content ≠ "") :
    ∃ r, process_pipeline content metadata extractedAt opts hasClient aiEnt aiSum
        = .ok r ∧
      (("entities" ∈ r.keys) ↔ opts.extract_entities.getD true = true) ∧
      (("summary" ∈ r.keys) ↔ opts.generate_summary.getD true = true) ∧
      (("tables" ∈ r.keys) ↔ opts.extract_tables.getD true = true) ∧
      "classification" ∈ r.keys := by
  unfold process_pipeline
  rw [if_neg hc]
  refine ⟨_, rfl, ?_, ?_, ?_, ?_⟩ <;>
    cases hE : opts.extract_entities.getD true <;>
    cases hS : opts.generate_summary.getD true <;>
    cases hT : opts.extract_tables.getD true <;>
    simp [PResult.keys, hE, hS, hT]

/-- C3 witness: the amended statement at a concrete mixed flag setting
(entities on, summary off, tables defaulted). -/
theorem c3_enrichment_toggles_witness :
    "x" ≠ "" ∧
      ∃ r, process_pipeline "x" [] "t" ⟨some true, some false, none, none⟩
          false none none = .ok r ∧
        (("entities" ∈ r.keys) ↔
          (POptions.mk (some true) (some false) none none).extract_entities.getD true
            = true) ∧
        (("summary" ∈ r.keys) ↔
          (POptions.mk (some true) (some false) none none).generate_summary.getD true
            = true) ∧
        (("tables" ∈ r.keys) ↔
          (POptions.mk (some true) (some false) none none).extract_tables.getD true
            = true) ∧
        "classification" ∈ r.keys :=
  ⟨by decide, c3_enrichment_toggles "x" [] "t" ⟨some true, some false, none, none⟩
    false none none (by decide)⟩

/-- C10 witness: the defaults at a concrete input. -/
theorem c10_option_defaults_witness :
    "hello" ≠ "" ∧
      ∃ r, process_pipeline "hello" [] "t"
            ⟨none, none, none, none⟩ false none none = .ok r ∧
        r.entities = some (extract_entities "hello" true
          (if false then none else none)) ∧
        r.summary = some (generate_summary false none "hello") ∧
        r.tables = some (extract_tables_from_content "hello") ∧
        r.keys = ["content", "metadata", "extracted_at", "entities", "summary",
                  "tables", "classification"] :=
  ⟨by decide, c10_option_defaults "hello" [] "t" false none none (by decide)⟩

/-! ### Lemmas about the string primitives -/

theorem splitChar_ne_nil (c : Char) (l : List Char) : splitChar c l ≠ [] := by
  induction l with
  | nil => simp [splitChar]
  | cons x xs ih =>
    unfold splitChar
    rcases h : splitChar c xs with _ | ⟨hd, tl⟩
    · exact absurd h ih
    · by_cases hx : x = c <;> simp [hx]

theorem splitChar_cons_sep (c : Char) (b : List Char) :
    splitChar c (c :: b) = [] :: splitChar c b := by
  conv_lhs => unfold splitChar
  rcases h : splitChar c b with _ | ⟨hd, tl⟩
  · exact absurd h (splitChar_ne_nil c b)
  · simp

theorem splitChar_not_mem (c : Char) (a : List Char) (h : c ∉ a) :
    splitChar c a = [a] := by
  induction a with
  | nil => rfl
  | cons x xs ih =>
    have hx : x ≠ c := fun he => h (by rw [he]; exact List.mem_cons_self c xs)
    have hxs : c ∉ xs := fun hm => h (List.mem_cons_of_mem _ hm)
    conv_lhs => unfold splitChar
    rw [ih hxs]
    simp [hx]

theorem splitChar_sep_append (c : Char) (a b : List Char) (h : c ∉ a) :
    splitChar c (a ++ c :: b) = a :: splitChar c b := by
  induction a with
  | nil => simpa using splitChar_cons_sep c b
  | cons x xs ih =>
    have hx : x ≠ c := fun he => h (by rw [he]; exact List.mem_cons_self c xs)
    have hxs : c ∉ xs := fun hm => h (List.mem_cons_of_mem _ hm)
    show splitChar c (x :: (xs ++ c :: b)) = (x :: xs) :: splitChar c b
    conv_lhs => unfold splitChar
    rw [ih hxs]
    simp [hx]

theorem splitChar_nl_pyJoin (parts : List String)
    (h : ∀ p ∈ parts, '\n' ∉ p.data) (hne : parts ≠ []) :
    splitChar '\n' (pyJoin "\n\n" parts).data
      = List.intersperse [] (parts.map String.data) := by
  induction parts with
  | nil => exact absurd rfl hne
  | cons p rest ih =>
    cases rest with
    | nil =>
      show splitChar '\n' p.data = _
      rw [splitChar_not_mem _ _ (h p (List.mem_cons_self _ _))]
      rfl
    | cons q rest2 =>
      have hq : ∀ x ∈ q :: rest2, '\n' ∉ x.data :=
        fun x hx => h x (List.mem_cons_of_mem _ hx)
      have ih' := ih hq (by simp)
      show splitChar '\n' ((p ++ "\n\n" ++ pyJoin "\n\n" (q :: rest2))).data = _
      rw [String.data_append, String.data_append,
        show ("\n\n" : String).data = ['\n', '\n'] from rfl, List.append_assoc,
        show (['\n', '\n'] : List Char) ++ (pyJoin "\n\n" (q :: rest2)).data
          = '\n' :: ('\n' :: (pyJoin "\n\n" (q :: rest2)).data) from rfl]
      rw [splitChar_sep_append _ _ _ (h p (List.mem_cons_self _ _)),
        splitChar_cons_sep, ih']
      simp [List.intersperse_cons_cons]

theorem dropWhile_pyWs_eq_self (l : List Char) (h : ∀ x ∈ l, pyWs x = false) :
    l.dropWhile pyWs = l := by
  cases l with
  | nil => rfl
  | cons x xs =>
    rw [List.dropWhile_cons, if_neg (by simp [h x (List.mem_cons_self _ _)])]

theorem stripList_eq_self (l : List Char) (h : ∀ x ∈ l, pyWs x = false) :
    stripList l = l := by
  unfold stripList
  rw [dropWhile_pyWs_eq_self l h,
    dropWhile_pyWs_eq_self l.reverse (fun x hx => h x (List.mem_reverse.mp hx)),
    List.reverse_reverse]

theorem stripList_append_space (a : List Char) (h : ∀ x ∈ a, pyWs x = false)
    (ha : a ≠ []) : stripList (a ++ [' ']) = a := by
  cases a with
  | nil => exact absurd rfl ha
  | cons x xs =>
    unfold stripList
    rw [show (x :: xs) ++ [' '] = x :: (xs ++ [' ']) from rfl,
      List.dropWhile_cons, if_neg (by simp [h x (List.mem_cons_self _ _)]),
      List.reverse_cons, List.reverse_append,
      show ([' '] : List Char).reverse = [' '] from rfl, List.append_assoc,
      show ([' '] : List Char) ++ (xs.reverse ++ [x]) = ' ' :: (xs.reverse ++ [x])
        from rfl,
      List.dropWhile_cons, if_pos (show pyWs ' ' = true from rfl)]
    rw [dropWhile_pyWs_eq_self (xs.reverse ++ [x]) ?side]
    case side =>
      intro y hy
      rcases List.mem_append.mp hy with h1 | h1
      · exact h y (List.mem_cons_of_mem _ (List.mem_reverse.mp h1))
      · simp only [List.mem_singleton] at h1
        subst h1
        exact h y (List.mem_cons_self _ _)
    rw [← List.reverse_cons, List.reverse_reverse]

theorem stripList_cons_space (a : List Char) (h : ∀ x ∈ a, pyWs x = false) :
    stripList (' ' :: a) = a := by
  unfold stripList
  rw [List.dropWhile_cons, if_pos (show pyWs ' ' = true from rfl),
    dropWhile_pyWs_eq_self a h,
    dropWhile_pyWs_eq_self a.reverse (fun x hx => h x (List.mem_reverse.mp hx)),
    List.reverse_reverse]

theorem containsSub_append_right (pat a b : List Char)
    (h : containsSub pat b = true) : containsSub pat (a ++ b) = true := by
  induction a with
  | nil => simpa using h
  | cons x xs ih =>
    show containsSub pat (x :: (xs ++ b)) = true
    unfold containsSub
    simp [ih]

/-! ### Lemmas about plain cells and pipe-joined rows -/

theorem plainCell_ne_empty {s : String} (h : plainCell s = true) : s ≠ "" := by
  unfold plainCell at h
  simp at h
  exact h.1

theorem plainCell_alphanum {s : String} (h : plainCell s = true) :
    ∀ x ∈ s.data, x.isAlphanum = true := by
  unfold plainCell at h
  simp [List.all_eq_true] at h
  exact h.2

theorem alphanum_not_ws {c : Char} (h : c.isAlphanum = true) : pyWs c = false := by
  cases hw : pyWs c
  · rfl
  · exfalso
    unfold pyWs at hw
    simp only [Bool.or_eq_true, decide_eq_true_eq] at hw
    rcases hw with ((((rfl | rfl) | rfl) | rfl) | rfl) | rfl <;>
      exact absurd h (by decide)

theorem plain_not_mem (s : String) (h : plainCell s = true) (d : Char)
    (hd : d.isAlphanum = false) : d ∉ s.data := by
  intro hm
  have := plainCell_alphanum h d hm
  rw [this] at hd
  cases hd

theorem plain_data_ne_nil {s : String} (h : plainCell s = true) : s.data ≠ [] :=
  fun he => plainCell_ne_empty h (String.ext (by rw [he]))

theorem row_data (a b : String) :
    (a ++ " | " ++ b).data = a.data ++ (' ' :: '|' :: ' ' :: b.data) := by
  rw [String.data_append, String.data_append, List.append_assoc]
  rfl

theorem pipe_in_row (a b : String) : pyContainsStr "|" (a ++ " | " ++ b) = true := by
  unfold pyContainsStr
  rw [row_data]
  exact containsSub_append_right _ _ _ rfl

theorem is_candidate_row (a b : String) : is_candidate (a ++ " | " ++ b) = true := by
  unfold is_candidate
  rw [pipe_in_row]
  rfl

/-! ### Lemmas about the table-reconstruction loop -/

/-- A line that qualifies as a table row extends the open buffer. -/
theorem tablesLoop_cons_append (line : String) (rest : List String)
    (cur : List (List String)) (tabs : List (List (List String)))
    (hc : is_candidate line = true) (hl : 1 < (split_cells line).length) :
    tablesLoop (line :: rest) cur tabs
      = tablesLoop rest (cur ++ [split_cells line]) tabs := by
  conv_lhs => unfold tablesLoop
  simp [hc, hl]

/-- A non-candidate line flushes the buffer, emitting it only when it
holds more than one row. -/
theorem tablesLoop_cons_flush (line : String) (rest : List String)
    (cur : List (List String)) (tabs : List (List (List String)))
    (hc : is_candidate line = false) :
    tablesLoop (line :: rest) cur tabs
      = tablesLoop rest [] (if cur.length > 1 then tabs ++ [cur] else tabs) := by
  conv_lhs => unfold tablesLoop
  simp [hc, apply_ite (fun t => tablesLoop rest [] t)]

/-- If no line of the input qualifies as a table row, the loop never
opens a buffer and returns its accumulator unchanged. -/
theorem tablesLoop_no_qualifying (lines : List String)
    (h : ∀ l ∈ lines, ¬(is_candidate l = true ∧ 1 < (split_cells l).length)) :
    ∀ tabs, tablesLoop lines [] tabs = tabs := by
  induction lines with
  | nil => intro tabs; simp [tablesLoop]
  | cons line rest ih =>
    intro tabs
    have hr : ∀ l ∈ rest, ¬(is_candidate l = true ∧ 1 < (split_cells l).length) :=
      fun l hm => h l (List.mem_cons_of_mem _ hm)
    by_cases hc : is_candidate line
    · have hlen : ¬ 1 < (split_cells line).length :=
        fun hlen => h line (List.mem_cons_self _ _) ⟨hc, hlen⟩
      conv_lhs => unfold tablesLoop
      simp only [hc, if_true]
      rw [if_neg hlen]
      exact ih hr tabs
    · rw [tablesLoop_cons_flush line rest _ _ (by simpa using hc)]
      simpa using ih hr tabs

/-- A non-candidate line with at most one buffered row resets the buffer
without emitting anything. -/
theorem tablesLoop_cons_skip (line : String) (rest : List String)
    (cur : List (List String)) (tabs : List (List (List String)))
    (hc : is_candidate line = false) (hl : ¬ cur.length > 1) :
    tablesLoop (line :: rest) cur tabs = tablesLoop rest [] tabs := by
  rw [tablesLoop_cons_flush line rest cur tabs hc, if_neg hl]

/-- `str.strip` leaves a plain alphanumeric cell unchanged. -/
theorem pyStrip_plain (s : String) (h : plainCell s = true) : pyStrip s = s := by
  unfold pyStrip
  rw [stripList_eq_self s.data
    (fun x hx => alphanum_not_ws (plainCell_alphanum h x hx))]

/-- Splitting a pipe-joined row of two plain cells recovers the cells. -/
theorem split_cells_row (a b : String) (ha : plainCell a = true)
    (hb : plainCell b = true) : split_cells (a ++ " | " ++ b) = [a, b] := by
  have haWs : ∀ x ∈ a.data, pyWs x = false :=
    fun x hx => alphanum_not_ws (plainCell_alphanum ha x hx)
  have hbWs : ∀ x ∈ b.data, pyWs x = false :=
    fun x hx => alphanum_not_ws (plainCell_alphanum hb x hx)
  have haPipe : '|' ∉ a.data := plain_not_mem a ha '|' (by decide)
  have hbPipe : '|' ∉ b.data := plain_not_mem b hb '|' (by decide)
  unfold split_cells
  rw [if_pos (pipe_in_row a b)]
  unfold pySplitChar
  rw [row_data,
    show a.data ++ (' ' :: '|' :: ' ' :: b.data)
      = (a.data ++ [' ']) ++ '|' :: (' ' :: b.data) by simp,
    splitChar_sep_append '|' (a.data ++ [' ']) (' ' :: b.data) ?napipe,
    splitChar_not_mem '|' (' ' :: b.data) ?nbpipe]
  case napipe =>
    intro hm
    rcases List.mem_append.mp hm with h1 | h1
    · exact haPipe h1
    · simp at h1
  case nbpipe =>
    intro hm
    rcases List.mem_cons.mp hm with h1 | h1
    · simp at h1
    · exact hbPipe h1
  simp only [List.map]
  rw [show pyStrip ⟨a.data ++ [' ']⟩ = ⟨stripList (a.data ++ [' '])⟩ from rfl,
    stripList_append_space a.data haWs (plain_data_ne_nil ha),
    show pyStrip ⟨' ' :: b.data⟩ = ⟨stripList (' ' :: b.data)⟩ from rfl,
    stripList_cons_space b.data hbWs]
  show List.filter _ [a, b] = [a, b]
  simp [List.filter, plainCell_ne_empty ha, plainCell_ne_empty hb]

/-- A pipe-joined row of plain cells contains no newline. -/
theorem row_no_nl (a b : String) (ha : plainCell a = true)
    (hb : plainCell b = true) : '\n' ∉ (a ++ " | " ++ b).data := by
  rw [row_data]
  intro hm
  rcases List.mem_append.mp hm with h1 | h1
  · exact plain_not_mem a ha '\n' (by decide) h1
  · rcases List.mem_cons.mp h1 with h2 | h2
    · exact absurd h2 (by decide)
    · rcases List.mem_cons.mp h2 with h3 | h3
      · exact absurd h3 (by decide)
      · rcases List.mem_cons.mp h3 with h4 | h4
        · exact absurd h4 (by decide)
        · exact plain_not_mem b hb '\n' (by decide) h4

/-- The text `_extract_docx` assembles for a document with no paragraphs
and one 2×2 table of plain cells. -/
theorem docx_text_2x2 (c11 c12 c21 c22 : String)
    (h11 : plainCell c11 = true) (h12 : plainCell c12 = true)
    (h21 : plainCell c21 = true) (h22 : plainCell c22 = true) :
    docx_text [] [[[c11, c12], [c21, c22]]]
      = pyJoin "\n\n" ["\n[TABLES]\n", "Table 1:",
          c11 ++ " | " ++ c12, c21 ++ " | " ++ c22, ""] := by
  unfold docx_text
  simp only [List.filter, List.map, pyStrip_plain _ h11, pyStrip_plain _ h12,
    pyStrip_plain _ h21, pyStrip_plain _ h22]
  simp only [ne_eq, decide_not, List.enum, List.enumFrom, List.flatMap_cons,
    List.flatMap_nil, List.nil_append, List.append_nil, reduceIte]
  rfl

/-- C5 counterexample: reconstructing from the text the DOCX extractor
produces for a single 2×2 table yields no table at all (the `'\n\n'`
join separates the two pipe rows by blank lines, so each row is flushed
alone and discarded), hence no table with the original 4 cells. -/
theorem c5_counterexample :
    extract_tables_from_content (docx_text [] [[["A", "B"], ["C", "D"]]]) = [] ∧
      ¬ ∃ t ∈ extract_tables_from_content (docx_text [] [[["A", "B"], ["C", "D"]]]),
          (t.map List.length).sum = 4 := by
  constructor
  · decide
  · decide

/-- C5 amended: for every DOCX document consisting of one 2×2 table of
plain alphanumeric cells, re-running the reconstructor on the extracted
text recovers no table (the blank-line join breaks every row into its
own block), so the original cell count is not preserved. -/
theorem c5_roundtrip_collapses (c11 c12 c21 c22 : String)
    (h11 : plainCell c11 = true) (h12 : plainCell c12 = true)
    (h21 : plainCell c21 = true) (h22 : plainCell c22 = true) :
    extract_tables_from_content (docx_text [] [[[c11, c12], [c21, c22]]]) = [] := by
  rw [docx_text_2x2 c11 c12 c21 c22 h11 h12 h21 h22]
  unfold extract_tables_from_content
  have hlines : pySplitChar '\n'
      (pyJoin "\n\n" ["\n[TABLES]\n", "Table 1:",
        c11 ++ " | " ++ c12, c21 ++ " | " ++ c22, ""])
      = ["", "[TABLES]", "", "", "Table 1:", "",
         c11 ++ " | " ++ c12, "", c21 ++ " | " ++ c22, "", ""] := by
    unfold pySplitChar
    rw [show pyJoin "\n\n" ["\n[TABLES]\n", "Table 1:",
          c11 ++ " | " ++ c12, c21 ++ " | " ++ c22, ""]
        = "\n[TABLES]\n" ++ "\n\n" ++ pyJoin "\n\n" ["Table 1:",
            c11 ++ " | " ++ c12, c21 ++ " | " ++ c22, ""] from rfl]
    rw [String.data_append, String.data_append,
      show ("\n[TABLES]\n" : String).data
        = '\n' :: ("[TABLES]".data ++ ['\n']) from rfl,
      show ("\n\n" : String).data = ['\n', '\n'] from rfl]
    simp only [List.cons_append, List.nil_append, List.append_assoc]
    rw [splitChar_cons_sep]
    rw [show ('[' :: 'T' :: 'A' :: 'B' :: 'L' :: 'E' :: 'S' :: ']' :: '\n' :: '\n'
          :: '\n' :: (pyJoin "\n\n" ["Table 1:", c11 ++ " | " ++ c12,
            c21 ++ " | " ++ c22, ""]).data)
        = (['[', 'T', 'A', 'B', 'L', 'E', 'S', ']'] : List Char)
            ++ '\n' :: ('\n' :: '\n' :: (pyJoin "\n\n" ["Table 1:",
              c11 ++ " | " ++ c12, c21 ++ " | " ++ c22, ""]).data)
        from rfl]
    rw [splitChar_sep_append '\n' ['[', 'T', 'A', 'B', 'L', 'E', 'S', ']'] _
        (by decide),
      splitChar_cons_sep, splitChar_cons_sep]
    rw [splitChar_nl_pyJoin ["Table 1:", c11 ++ " | " ++ c12,
        c21 ++ " | " ++ c22, ""] ?nonl (by simp)]
    case nonl =>
      intro p hp
      rcases List.mem_cons.mp hp with rfl | hp1
      · decide
      · rcases List.mem_cons.mp hp1 with rfl | hp2
        · exact row_no_nl c11 c12 h11 h12
        · rcases List.mem_cons.mp hp2 with rfl | hp3
          · exact row_no_nl c21 c22 h21 h22
          · rcases List.mem_cons.mp hp3 with rfl | hp4
            · decide
            · simp at hp4
    simp only [List.map, List.intersperse_cons_cons, List.intersperse_singleton]
  rw [hlines]
  rw [tablesLoop_cons_skip "" _ _ _ (by decide) (by simp),
    tablesLoop_cons_skip "[TABLES]" _ _ _ (by decide) (by simp),
    tablesLoop_cons_skip "" _ _ _ (by decide) (by simp),
    tablesLoop_cons_skip "" _ _ _ (by decide) (by simp),
    tablesLoop_cons_skip "Table 1:" _ _ _ (by decide) (by simp),
    tablesLoop_cons_skip "" _ _ _ (by decide) (by simp)]
  rw [tablesLoop_cons_append _ _ _ _ (is_candidate_row c11 c12)
      (by rw [split_cells_row c11 c12 h11 h12]; norm_num)]
  rw [tablesLoop_cons_skip "" _ _ _ (by decide) (by simp)]
  rw [tablesLoop_cons_append _ _ _ _ (is_candidate_row c21 c22)
      (by rw [split_cells_row c21 c22 h21 h22]; norm_num)]
  rw [tablesLoop_cons_skip "" _ _ _ (by decide) (by simp),
    tablesLoop_cons_skip "" _ _ _ (by decide) (by simp)]
  rfl

/-- C5 witness: the amended statement at a concrete 2×2 table. -/
theorem c5_roundtrip_collapses_witness :
    (plainCell "A" = true ∧ plainCell "B" = true ∧
      plainCell "C" = true ∧ plainCell "D" = true) ∧
      extract_tables_from_content (docx_text [] [[["A", "B"], ["C", "D"]]]) = [] :=
  ⟨⟨by decide, by decide, by decide, by decide⟩,
   c5_roundtrip_collapses "A" "B" "C" "D" (by decide) (by decide) (by decide)
     (by decide)⟩

/-- C8: `_extract_tables_from_content` returns no tables when no line
qualifies (a pipe/tab/double-space line still has to split into at least
two cells to qualify), and exactly one 3×3 table for a text of three
pipe-delimited three-cell lines followed by a blank line. -/
theorem c8_reconstruct_behaviour :
    (∀ content : String,
        (∀ l ∈ pySplitChar '\n' content,
          ¬(is_candidate l = true ∧ 1 < (split_cells l).length)) →
        extract_tables_from_content content = []) ∧
    (∀ content l1 l2 l3 : String,
        pySplitChar '\n' content = [l1, l2, l3, ""] →
        is_candidate l1 = true → is_candidate l2 = true → is_candidate l3 = true →
        (split_cells l1).length = 3 → (split_cells l2).length = 3 →
        (split_cells l3).length = 3 →
        extract_tables_from_content content
          = [[split_cells l1, split_cells l2, split_cells l3]]) := by
  constructor
  · intro content h
    unfold extract_tables_from_content
    exact tablesLoop_no_qualifying _ h []
  · intro content l1 l2 l3 hsplit b1 b2 b3 n1 n2 n3
    unfold extract_tables_from_content
    rw [hsplit]
    rw [tablesLoop_cons_append l1 _ _ _ b1 (by rw [n1]; norm_num)]
    rw [tablesLoop_cons_append l2 _ _ _ b2 (by rw [n2]; norm_num)]
    rw [tablesLoop_cons_append l3 _ _ _ b3 (by rw [n3]; norm_num)]
    rw [tablesLoop_cons_flush "" _ _ _ (by decide)]
    simp [tablesLoop]

/-- C8 witness: both parts at concrete texts — a delimiter-free text,
and three pipe rows of three cells followed by a blank line. -/
theorem c8_reconstruct_behaviour_witness :
    extract_tables_from_content "hello\nworld x" = [] ∧
      extract_tables_from_content "a|b|c\nd|e|f\ng|h|i\n"
        = [[split_cells "a|b|c", split_cells "d|e|f", split_cells "g|h|i"]] :=
  ⟨c8_reconstruct_behaviour.1 "hello\nworld x" (by decide),
   c8_reconstruct_behaviour.2 "a|b|c\nd|e|f\ng|h|i\n" "a|b|c" "d|e|f" "g|h|i"
     (by decide) (by decide) (by decide) (by decide) (by decide) (by decide)
     (by decide)⟩

end DocProc
